import Mathlib

/-!
Shallow embedding of the real-time waveform simulation and timing engine of
the Medical-monitor-app repository: the shape library (waveformUtils.js), the
AV-block ECG generator (ecgGenerators/avBlockGenerator.js), the scheduling and
parameter-change logic of the monitor engine (script.js) and the constants of
config.js.

Modelling conventions:
* JavaScript numbers are modelled by ℚ.  A numeric slot that the source
  guards with Number.isFinite (or that can be undefined / null / NaN) is
  modelled by Option ℚ, with none standing for the non-finite or missing
  value; ensureFinite collapses none to the caller-supplied default.
* The timer variables of the engine hold either a finite time or one of the
  JavaScript infinities.  Each such field is modelled by Option ℚ and the
  comment on the field says which infinity none stands for.  The comparison
  currentTime >= nextTime is false when nextTime is +Infinity, which is what
  timerDue encodes.
* Calls of Math.random() are modelled by explicit rand arguments, and the
  wall clock performance.now()/1000 by an explicit now argument.
* The transcendental Math functions (sin, exp, pow, and the constant
  Math.PI) are modelled by an arbitrary MathPrims interpretation: every
  theorem below is proved for all interpretations unless it fixes one.
-/

namespace MonitorSim

/-- Truncation toward zero, the rounding used by the JavaScript % operator. -/
def jsTrunc (q : ℚ) : ℤ := if 0 ≤ q then q.floor else q.ceil

/-- JavaScript remainder x % d (truncated division, sign of the dividend). -/
def jsRem (x d : ℚ) : ℚ := x - d * ((jsTrunc (x / d) : ℤ) : ℚ)

/-- waveformUtils.js ensureFinite(value, defaultValue): a non-finite (or
missing) value, modelled by none, is replaced by the default. -/
def ensureFinite (value : Option ℚ) (defaultValue : ℚ) : ℚ :=
  value.getD defaultValue

/-- The JavaScript Math primitives used by the shape library (Math.sin,
Math.exp, Math.pow and the constant Math.PI), modelled as an arbitrary pure
interpretation.  The embedding is parametric in them. -/
structure MathPrims where
  sin : ℚ → ℚ
  exp : ℚ → ℚ
  powf : ℚ → ℚ → ℚ
  pi : ℚ

/-- A concrete, trivially computable interpretation of the Math primitives,
used to evaluate the embedding on inputs whose control path never reaches a
transcendental call. -/
def pZero : MathPrims :=
  { sin := fun _ => 0, exp := fun _ => 0, powf := fun _ _ => 0, pi := 0 }

/-- waveformUtils.js gaussian(t, mean, stdDev, amplitude). -/
def gaussian (P : MathPrims) (t mean stdDev amplitude : ℚ) : ℚ :=
  let safeStdDev := max |stdDev| (1 / 10 ^ 9)
  if amplitude = 0 then 0
  else
    let e := -((t - mean) ^ 2) / (2 * safeStdDev * safeStdDev)
    if e < -700 then 0 else amplitude * P.exp e

/-- waveformUtils.js generatePlethPulseShape(t, beatDuration, spo2Value,
shapeType).  t = none models a null / non-finite elapsed time; beatDuration =
none models a non-finite duration; now models performance.now()/1000, which
the source reads only when t is null, non-finite or negative. -/
def generatePlethPulseShape (P : MathPrims) (now : ℚ) (t : Option ℚ)
    (beatDuration : Option ℚ) (spo2Value : Option ℚ) (shapeType : String) : ℚ :=
  let currentSpo2 := ensureFinite spo2Value 0
  let baseLevel : ℚ := 1 / 10
  if shapeType = "no_signal" then baseLevel
  else if currentSpo2 < 1 then baseLevel
  else
    let DEFAULT_FALLBACK_DURATION : ℚ := 2
    let effectiveDuration :=
      match beatDuration with
      | some d => if 0 < d then d else DEFAULT_FALLBACK_DURATION
      | none => DEFAULT_FALLBACK_DURATION
    let effectiveTime :=
      match t with
      | some x => if 0 ≤ x then x else now
      | none => now
    let t_rel := jsRem effectiveTime effectiveDuration
    let lowPerf := shapeType = "low_perfusion"
    let pulseAmplitude0 : ℚ := if lowPerf then 2 / 5 else 17 / 20
    let riseTimeFactor : ℚ := if lowPerf then 7 / 20 else 7 / 25
    let risePower : ℚ := if lowPerf then 3 / 2 else 2
    let notchTimeFactor : ℚ := if lowPerf then 11 / 20 else 1 / 2
    let notchWidthFactor : ℚ := if lowPerf then 2 / 25 else 3 / 50
    let notchDepthFactor : ℚ := if lowPerf then 1 / 20 else 1 / 5
    let decayFactor : ℚ := if lowPerf then 11 / 5 else 5 / 2
    let pulseAmplitude := pulseAmplitude0 * ((currentSpo2 / 100) * (4 / 5) + 1 / 5)
    let riseEndTime := effectiveDuration * riseTimeFactor
    let notchTime := effectiveDuration * notchTimeFactor
    let notchWidth := effectiveDuration * notchWidthFactor
    let value : ℚ :=
      if t_rel < riseEndTime ∧ 1 / 10 ^ 6 < riseEndTime then
        let phase := t_rel / riseEndTime * (P.pi / 2)
        pulseAmplitude * P.powf (P.sin phase) risePower
      else if riseEndTime ≤ t_rel then
        let timeSinceRiseEnd := t_rel - riseEndTime
        let decayTimeConstant := effectiveDuration / decayFactor
        pulseAmplitude * P.exp (-(timeSinceRiseEnd / decayTimeConstant))
      else 0
    let notchDepth := pulseAmplitude * notchDepthFactor
    let safeNotchWidth := max notchWidth (1 / 10 ^ 4)
    let value := value + gaussian P t_rel notchTime safeNotchWidth (-notchDepth)
    max 0 (baseLevel + value)

/-- waveformUtils.js generateAbpWaveformShape(t, beatDuration,
amplitudeSystolic, amplitudeDiastolic, shapeType), complete with its two
early returns (the flat-zero guard and the no-forward-pulse-pressure
return). -/
def generateAbpWaveformShape (P : MathPrims) (now : ℚ) (t : Option ℚ)
    (beatDuration : Option ℚ) (amplitudeSystolic amplitudeDiastolic : Option ℚ)
    (shapeType : String) : ℚ :=
  let sys := ensureFinite amplitudeSystolic 0
  let dia := ensureFinite amplitudeDiastolic 0
  if sys < 1 ∧ dia < 1 then 0
  else
    let safeDia := max 0 dia
    let safeSys := max (safeDia + 1) sys
    let DEFAULT_FALLBACK_DURATION : ℚ := 2
    let effectiveDuration :=
      match beatDuration with
      | some d => if 0 < d then d else DEFAULT_FALLBACK_DURATION
      | none => DEFAULT_FALLBACK_DURATION
    let effectiveTime :=
      match t with
      | some x => if 0 ≤ x then x else now
      | none => now
    let t_rel := jsRem effectiveTime effectiveDuration
    let pulsePressure := safeSys - safeDia
    if pulsePressure ≤ 0 then safeDia
    else
      let damped := shapeType = "damped"
      let hyper := shapeType = "hyperdynamic"
      let vaso := shapeType = "vasoconstricted"
      let upstrokeEndTimeFactor : ℚ :=
        if damped then 7 / 25 else if hyper then 9 / 100
        else if vaso then 13 / 100 else 3 / 20
      let upstrokePower : ℚ :=
        if damped then 2 else if hyper then 5 else if vaso then 7 / 2 else 3
      let notchTimeFactor : ℚ :=
        if damped then 9 / 20 else if hyper then 9 / 20
        else if vaso then 3 / 10 else 7 / 20
      let notchWidthFactor : ℚ :=
        if damped then 3 / 20 else if hyper then 3 / 50
        else if vaso then 1 / 25 else 1 / 20
      let notchDepthFactor : ℚ :=
        if damped then 1 / 200 else if hyper then 7 / 100
        else if vaso then 9 / 100 else 1 / 10
      let diastolicDecayFactor : ℚ :=
        if damped then 5 / 2 else if hyper then 24 / 5
        else if vaso then 19 / 10 else 3
      let upstrokeEndTime := effectiveDuration * upstrokeEndTimeFactor
      let notchTime := effectiveDuration * notchTimeFactor
      let safeNotchWidth := max (effectiveDuration * notchWidthFactor) (1 / 10 ^ 4)
      let value : ℚ :=
        if t_rel < upstrokeEndTime ∧ 1 / 10 ^ 6 < upstrokeEndTime then
          let phase := t_rel / upstrokeEndTime * (P.pi / 2)
          safeDia + pulsePressure * P.powf (P.sin phase) upstrokePower
        else if upstrokeEndTime ≤ t_rel then
          let timeSinceUpstrokeEnd := t_rel - upstrokeEndTime
          let decayTimeConstant := effectiveDuration / diastolicDecayFactor
          safeDia + pulsePressure * P.exp (-(timeSinceUpstrokeEnd / decayTimeConstant))
        else safeDia
      let notchDepth := pulsePressure * notchDepthFactor
      let value := value + gaussian P t_rel notchTime safeNotchWidth (-notchDepth)
      max 0 (min (safeSys + 15) value)

/-- The main computation path of generateAbpWaveformShape: the body below
its two early returns (the flat-zero guard on sys < 1 and dia < 1, and the
no-forward-pulse-pressure return of the bare diastolic).  Used to state that
under the internal coercions those early returns are unreachable. -/
def abpMainPath (P : MathPrims) (now : ℚ) (t : Option ℚ)
    (beatDuration : Option ℚ) (amplitudeSystolic amplitudeDiastolic : Option ℚ)
    (shapeType : String) : ℚ :=
  let sys := ensureFinite amplitudeSystolic 0
  let dia := ensureFinite amplitudeDiastolic 0
  let safeDia := max 0 dia
  let safeSys := max (safeDia + 1) sys
  let DEFAULT_FALLBACK_DURATION : ℚ := 2
  let effectiveDuration :=
    match beatDuration with
    | some d => if 0 < d then d else DEFAULT_FALLBACK_DURATION
    | none => DEFAULT_FALLBACK_DURATION
  let effectiveTime :=
    match t with
    | some x => if 0 ≤ x then x else now
    | none => now
  let t_rel := jsRem effectiveTime effectiveDuration
  let pulsePressure := safeSys - safeDia
  let damped := shapeType = "damped"
  let hyper := shapeType = "hyperdynamic"
  let vaso := shapeType = "vasoconstricted"
  let upstrokeEndTimeFactor : ℚ :=
    if damped then 7 / 25 else if hyper then 9 / 100
    else if vaso then 13 / 100 else 3 / 20
  let upstrokePower : ℚ :=
    if damped then 2 else if hyper then 5 else if vaso then 7 / 2 else 3
  let notchTimeFactor : ℚ :=
    if damped then 9 / 20 else if hyper then 9 / 20
    else if vaso then 3 / 10 else 7 / 20
  let notchWidthFactor : ℚ :=
    if damped then 3 / 20 else if hyper then 3 / 50
    else if vaso then 1 / 25 else 1 / 20
  let notchDepthFactor : ℚ :=
    if damped then 1 / 200 else if hyper then 7 / 100
    else if vaso then 9 / 100 else 1 / 10
  let diastolicDecayFactor : ℚ :=
    if damped then 5 / 2 else if hyper then 24 / 5
    else if vaso then 19 / 10 else 3
  let upstrokeEndTime := effectiveDuration * upstrokeEndTimeFactor
  let notchTime := effectiveDuration * notchTimeFactor
  let safeNotchWidth := max (effectiveDuration * notchWidthFactor) (1 / 10 ^ 4)
  let value : ℚ :=
    if t_rel < upstrokeEndTime ∧ 1 / 10 ^ 6 < upstrokeEndTime then
      let phase := t_rel / upstrokeEndTime * (P.pi / 2)
      safeDia + pulsePressure * P.powf (P.sin phase) upstrokePower
    else if upstrokeEndTime ≤ t_rel then
      let timeSinceUpstrokeEnd := t_rel - upstrokeEndTime
      let decayTimeConstant := effectiveDuration / diastolicDecayFactor
      safeDia + pulsePressure * P.exp (-(timeSinceUpstrokeEnd / decayTimeConstant))
    else safeDia
  let notchDepth := pulsePressure * notchDepthFactor
  let value := value + gaussian P t_rel notchTime safeNotchWidth (-notchDepth)
  max 0 (min (safeSys + 15) value)

/-- waveformUtils.js ETCO2_MAX_SHAPE_REFERENCE_RR. -/
def ETCO2_MAX_SHAPE_REFERENCE_RR : ℚ := 20

/-- waveformUtils.js ETCO2_MAX_ACTIVE_SHAPE_DURATION = 60 / 20 = 3 s, the cap
on the active portion of the capnogram breath shape. -/
def ETCO2_MAX_ACTIVE_SHAPE_DURATION : ℚ := 60 / ETCO2_MAX_SHAPE_REFERENCE_RR

/-- waveformUtils.js generateEtco2WaveformShape(t, breathDuration,
etco2Value, shapeType).  breathDuration = none models a non-finite duration;
now models performance.now()/1000 as above. -/
def generateEtco2WaveformShape (P : MathPrims) (now : ℚ) (t : Option ℚ)
    (breathDuration : Option ℚ) (etco2Value : Option ℚ) (shapeType : String) : ℚ :=
  match breathDuration with
  | none => 0
  | some d =>
    if d ≤ 0 then 0
    else if ensureFinite etco2Value 0 < 1 / 100 ∨ shapeType = "disconnect" then 0
    else
      let effectiveTime :=
        match t with
        | some x => if 0 ≤ x then x else now
        | none => now
      let t_rel := jsRem (jsRem effectiveTime d + d) d
      let durationForShapeCalculation := min d ETCO2_MAX_ACTIVE_SHAPE_DURATION
      let bron := shapeType = "bronchospasm"
      let leak := shapeType = "leak_obstruction"
      let inspirationEndFactor : ℚ := 2 / 5
      let plateauStartFactor : ℚ := if bron then 13 / 20 else if leak then 3 / 5 else 1 / 2
      let plateauEndFactor : ℚ := 9 / 10
      let plateauSlopeFactor : ℚ := if bron then 3 / 10 else if leak then -(3 / 20) else 1 / 20
      let upstrokeSteepness : ℚ := if bron then 6 else if leak then 7 else 10
      let downstrokeSteepness : ℚ := 12
      let inspirationEnd := durationForShapeCalculation * inspirationEndFactor
      let plateauStart := durationForShapeCalculation * plateauStartFactor
      let plateauEnd := durationForShapeCalculation * plateauEndFactor
      let activeWaveformEnd := durationForShapeCalculation
      let targetEtco2 := ensureFinite etco2Value 0
      let value : ℚ :=
        if t_rel < activeWaveformEnd then
          if t_rel < inspirationEnd then 0
          else if t_rel < plateauStart then
            let phaseDuration := plateauStart - inspirationEnd
            if 1 / 10 ^ 6 < phaseDuration then
              let phaseProgress := (t_rel - inspirationEnd) / phaseDuration
              targetEtco2 * (1 / (1 + P.exp (-upstrokeSteepness * (phaseProgress - 1 / 2))))
            else targetEtco2
          else if t_rel < plateauEnd then
            let plateauDuration := plateauEnd - plateauStart
            if 1 / 10 ^ 6 < plateauDuration then
              let plateauProgress := (t_rel - plateauStart) / plateauDuration
              targetEtco2 * (1 + plateauProgress * plateauSlopeFactor)
            else targetEtco2
          else
            let phaseDuration := activeWaveformEnd - plateauEnd
            if 1 / 10 ^ 6 < phaseDuration then
              let phaseProgress := (t_rel - plateauEnd) / phaseDuration
              let startValue := targetEtco2 * (1 + plateauSlopeFactor)
              startValue * (1 - 1 / (1 + P.exp (-downstrokeSteepness * (phaseProgress - 1 / 2))))
            else 0
        else 0
      max 0 value

/-- The rhythm-parameter fields read by generatePQRST
(ecgGenerators/pqrstGenerator.js); none models a missing field, resolved by
the source's ?? defaults. -/
structure PqrstParams where
  p_amp : Option ℚ
  t_amp : Option ℚ
  qrs_amp : Option ℚ
  q_amp_factor : Option ℚ
  s_amp_factor : Option ℚ
  pr_interval : Option ℚ
  qrs_width : Option ℚ
  t_width : Option ℚ
  t_mean_offset : Option ℚ
  hasP : Option Bool
  hasT : Option Bool
  st_elevation_amp : Option ℚ
  p_duration : Option ℚ
  deriving DecidableEq

/-- ecgGenerators/pqrstGenerator.js generatePQRST(t_relative, params), the
cardiac-complex shape function.  Unlike the waveformUtils shapes it has no
wall-clock fallback, no randomness and no mutable state; the now argument
models the same ambient performance.now()/1000 the other shape functions
can read, and the body never consults it — which the determinism theorem
below makes explicit.  The source's t_wave_start_time = Infinity /
t_wave_end_time = -Infinity sentinels (set when the T wave is disabled)
only steer comparisons; they are modelled by the hasTWave guard: with the
sentinels every t_relative-in-T-window test is false, and the ST-depression
window extends to every time at or past the J point.  The final
ensureFinite is the identity on ℚ. -/
def generatePQRST (P : MathPrims) (now : ℚ) (t_relative : ℚ) (pq : PqrstParams) : ℚ :=
  let p_amp := pq.p_amp.getD (3 / 20)
  let t_amp := pq.t_amp.getD (1 / 4)
  let qrs_amp := pq.qrs_amp.getD 1
  let q_amp_factor := pq.q_amp_factor.getD (1 / 10)
  let s_amp_factor := pq.s_amp_factor.getD (3 / 20)
  let pr_interval := pq.pr_interval.getD (4 / 25)
  let qrs_width := pq.qrs_width.getD (2 / 25)
  let t_width := pq.t_width.getD (7 / 100)
  let t_mean_offset := pq.t_mean_offset.getD (1 / 4)
  let hasP := pq.hasP.getD true
  let hasT := pq.hasT.getD true
  let st_elevation_amp := pq.st_elevation_amp.getD 0
  let p_value : ℚ :=
    if hasP ∧ p_amp ≠ 0 ∧ 0 < pr_interval then
      let p_duration := pq.p_duration.getD (min (pr_interval * (7 / 10)) (3 / 25))
      if 1 / 10 ^ 3 < p_duration ∧ 0 ≤ t_relative ∧ t_relative < p_duration then
        let v := p_amp * P.sin (P.pi / p_duration * t_relative)
        if v < 0 then 0 else v
      else 0
    else 0
  let qrs_value : ℚ :=
    if qrs_amp ≠ 0 ∧ 0 < qrs_width then
      let Aq := qrs_amp * q_amp_factor
      let Ar := qrs_amp
      let As := qrs_amp * s_amp_factor
      let tq := pr_interval + qrs_width * (1 / 10)
      let tr := pr_interval + qrs_width * (1 / 2)
      let ts := pr_interval + qrs_width * (9 / 10)
      gaussian P t_relative tr (qrs_width / 5) Ar -
        gaussian P t_relative tq (qrs_width / 6) Aq -
        gaussian P t_relative ts (qrs_width / 5) As
    else 0
  let hasTWave := hasT ∧ t_amp ≠ 0 ∧ 0 < t_width
  let t_duration := max (1 / 10) (3 * t_width)
  let t_mean := pr_interval + t_mean_offset
  let t_wave_start_time := t_mean - t_duration / 2
  let t_wave_end_time := t_wave_start_time + t_duration
  let t_value : ℚ :=
    if hasTWave ∧ t_wave_start_time ≤ t_relative ∧ t_relative < t_wave_end_time then
      let tv := t_amp * P.powf (P.sin (P.pi / t_duration * (t_relative - t_wave_start_time))) 2
      if 0 < t_amp ∧ tv < 0 then 0
      else if t_amp < 0 ∧ 0 < tv then 0
      else tv
    else 0
  let total0 := p_value + qrs_value + t_value
  let j_point_time := pr_interval + qrs_width * (9 / 10)
  if 0 < st_elevation_amp then
    let elevationEnd : Option ℚ :=
      if hasT then (if t_amp ≠ 0 ∧ 0 < t_width then some t_wave_end_time else none)
      else some (j_point_time + 3 / 10)
    match elevationEnd with
    | none => total0
    | some ee =>
      if j_point_time ≤ t_relative ∧ t_relative < ee then
        let total_elevation_duration := max (1 / 10 ^ 6) (ee - j_point_time)
        let progress := (t_relative - j_point_time) / total_elevation_duration
        let decay_start_factor : ℚ := 1
        let decay_end_factor : ℚ := 3 / 5
        let current_decay :=
          decay_start_factor - (decay_start_factor - decay_end_factor) * progress
        let current_st_elevation := st_elevation_amp * current_decay
        if hasTWave ∧ t_wave_start_time ≤ t_relative ∧ t_relative < t_wave_end_time then
          p_value + qrs_value + current_st_elevation + t_value * current_decay
        else
          p_value + qrs_value + current_st_elevation
      else total0
  else if st_elevation_amp < 0 then
    if hasTWave then
      if j_point_time ≤ t_relative ∧ t_relative < t_wave_start_time then
        p_value + qrs_value + st_elevation_amp
      else total0
    else
      if j_point_time ≤ t_relative then p_value + qrs_value + st_elevation_amp
      else total0
  else total0

/-! ### config.js constants -/

/-- config.js SAMPLE_RATE (logical simulation steps per second). -/
def SAMPLE_RATE : ℚ := 100

/-- config.js VITAL_INTERPOLATION_RATE. -/
def VITAL_INTERPOLATION_RATE : ℚ := 3 / 10

/-- config.js INTERPOLATION_SNAP_THRESHOLD. -/
def INTERPOLATION_SNAP_THRESHOLD : ℚ := 1 / 10

/-! ### Data model of the engine (script.js) -/

/-- The generator-family tag of a rhythm definition (the generatorType string
of a RHYTHM_PARAMS entry). -/
inductive GeneratorType
  | pqrst
  | avBlock
  | paced
  | artifact
  | flatline
  | chaotic
  deriving DecidableEq

/-- The fields of the runtime ECG rhythm-parameter object read by the
scheduler and parameter controller.  none models a missing field, as on the
empty params object installed for an unknown rhythm identifier. -/
structure EcgRuntimeParams where
  generatorType : Option GeneratorType
  isPEA : Option Bool
  isFlat : Option Bool
  isChaotic : Option Bool
  isArtifact : Option Bool
  irregular : Option ℚ
  baseHR : Option ℚ
  artifactType : Option String
  artifact_freq : Option ℚ
  deriving DecidableEq

/-- The empty params object ({}) that handleRemoteParamUpdate and
initiateParameterChange install when the rhythm identifier has no
RHYTHM_PARAMS entry. -/
def emptyEcgParams : EcgRuntimeParams :=
  { generatorType := none, isPEA := none, isFlat := none, isChaotic := none,
    isArtifact := none, irregular := none, baseHR := none,
    artifactType := none, artifact_freq := none }

/-- One ecg channel-parameter snapshot (rhythm key, numeric heart rate and
the runtime rhythm params). -/
structure EcgChannel where
  rhythm : String
  hr : ℚ
  params : EcgRuntimeParams
  deriving DecidableEq

/-- The spo2 channel-parameter fields the deferred-update machinery touches. -/
structure Spo2Params where
  value : ℚ
  shape : String
  deriving DecidableEq

/-- The abp channel-parameter fields the deferred-update machinery touches. -/
structure AbpParams where
  sys : ℚ
  dia : ℚ
  shape : String
  deriving DecidableEq

/-- The etco2 channel-parameter fields the deferred-update machinery touches. -/
structure Etco2Params where
  valueKpa : ℚ
  rr : ℚ
  etco2Shape : String
  deriving DecidableEq

/-- The engine state read and written by _checkAndResetTimers,
_calculateNextBeatTime and the parameter-change controller.  Fields named
last*/next* model the corresponding timer variables; for each Option ℚ timer
the comment states which JavaScript infinity none models. -/
structure Engine where
  rhythmTime : ℚ
  respiratoryTime : ℚ
  lastBreathTime : Option ℚ       -- none models -Infinity
  nextBreathTime : Option ℚ       -- none models +Infinity
  lastBeatTime : Option ℚ         -- none models -Infinity
  nextBeatTime : Option ℚ         -- none models +Infinity
  lastCompressionTime : Option ℚ  -- none models -Infinity
  nextCompressionTime : Option ℚ  -- none models +Infinity
  curEcg : EcgChannel             -- currentParams.ecg
  curSpo2 : Spo2Params            -- currentParams.spo2
  curAbp : AbpParams              -- currentParams.abp
  curEtco2 : Etco2Params          -- currentParams.etco2
  itpEcg : Option EcgChannel      -- interpolationTargetParams.ecg
  itpSpo2 : Option Spo2Params     -- interpolationTargetParams.spo2
  itpAbp : Option AbpParams       -- interpolationTargetParams.abp
  isEtco2UpdatePending : Bool
  pendingEtco2Params : Option Etco2Params
  isSpo2UpdatePending : Bool
  pendingSpo2Params : Option Spo2Params
  isAbpUpdatePending : Bool
  pendingAbpParams : Option AbpParams
  deriving DecidableEq

/-- The comparison currentTime >= nextTime of the schedulers; false when the
next-event time is +Infinity (none). -/
def timerDue (next : Option ℚ) (t : ℚ) : Prop :=
  match next with
  | none => False
  | some nb => nb ≤ t

instance (next : Option ℚ) (t : ℚ) : Decidable (timerDue next t) := by
  unfold timerDue
  cases next <;> infer_instance

/-! ### _calculateNextBeatTime (script.js) -/

/-- The rate selected by _calculateNextBeatTime from the effective ecg
source (target heart rate, or the rhythm baseHR for PEA / pulseless VT on a
pqrst generator); zero for every non-beat-based generator type. -/
def selectedBeatRate (src : EcgChannel) : ℚ :=
  let p := src.params
  let isPEA := p.isPEA.getD false
  let isPulselessVT := src.rhythm = "vt_pulseless"
  match p.generatorType with
  | some .pqrst =>
      if isPEA ∨ isPulselessVT then max (ensureFinite p.baseHR 0) 0 else max src.hr 0
  | some .avBlock => max src.hr 0
  | some .paced => max src.hr 0
  | _ => 0

/-- interval = 60.0 / rate, the base beat interval of _calculateNextBeatTime
before the irregularity multiplier and the 0.1 s floor; none models the
Infinity interval left in place when the rate is zero. -/
def rawBeatInterval (rate : ℚ) : Option ℚ :=
  if 0 < rate then some (60 / rate) else none

/-- The final beat interval of _calculateNextBeatTime: the base interval with
the bounded irregularity multiplier (rand models the Math.random() draw) and
the 0.1 s floor applied.  The source also requires currentParams.ecg.params
to exist before applying the multiplier; the engine always keeps a params
object there, so the check is always true and is not modelled. -/
def beatIntervalOf (src : EcgChannel) (rand : ℚ) : Option ℚ :=
  match rawBeatInterval (selectedBeatRate src) with
  | none => none
  | some base =>
    let irreg := src.params.irregular.getD 0
    let withIrreg :=
      if 0 < irreg ∧ irreg ≤ 1 then base * (1 + (rand - 1 / 2) * 2 * irreg) else base
    some (max (1 / 10) withIrreg)

/-- _calculateNextBeatTime: the new value of nextBeatTime.  The ecg source
for the rate is interpolationTargetParams.ecg when present, falling back to
currentParams.ecg; none models Infinity (no beat ever scheduled). -/
def calcNextBeatTime (e : Engine) (rand : ℚ) : Option ℚ :=
  let src := e.itpEcg.getD e.curEcg
  match beatIntervalOf src rand with
  | none => none
  | some interval =>
    let baseTime := e.lastBeatTime.getD e.rhythmTime
    let nb := baseTime + interval
    if nb ≤ e.rhythmTime then some (e.rhythmTime + 1 / SAMPLE_RATE) else some nb

/-! ### Breath / compression scheduling and _checkAndResetTimers -/

/-- The breath interval recomputed from a respiratory rate:
rr > 0 ? max(0.5, 60/rr) : Infinity (none). -/
def breathIntervalOfRr (rr : ℚ) : Option ℚ :=
  if 0 < rr then some (max (1 / 2) (60 / rr)) else none

/-- _resetBreathTiming(interval). -/
def resetBreathTiming (interval : Option ℚ) (e : Engine) : Engine :=
  { e with lastBreathTime := some e.respiratoryTime,
           nextBreathTime := interval.map (fun i => e.respiratoryTime + i) }

/-- The artifactType string of the CPR rhythm. -/
def cprTag : String := "cpr"

/-- _resetCompressionTiming. -/
def resetCompressionTiming (e : Engine) : Engine :=
  let p := e.curEcg.params
  let interval : Option ℚ :=
    if p.generatorType = some .artifact ∧ p.artifactType = some cprTag then
      let freq := p.artifact_freq.getD 110
      if 0 < freq then some (max (1 / 10) (60 / freq)) else none
    else none
  { e with lastCompressionTime := some e.rhythmTime,
           nextCompressionTime := interval.map (fun i => e.rhythmTime + i),
           lastBeatTime := some e.rhythmTime }

/-- The beat-based generator families of _checkAndResetTimers. -/
def beatBasedGenerator (p : EcgRuntimeParams) : Prop :=
  p.generatorType = some .pqrst ∨ p.generatorType = some .avBlock ∨
    p.generatorType = some .paced

instance (p : EcgRuntimeParams) : Decidable (beatBasedGenerator p) := by
  unfold beatBasedGenerator
  infer_instance

/-- The first block of _checkAndResetTimers: apply a pending ETCO2 update at
the breath boundary and reschedule the breath from its new rate, or, with
nothing pending, reschedule the breath from the current rate (skipping the
reset when the interval is Infinity). -/
def checkBreathTimers (e : Engine) : Engine :=
  if e.isEtco2UpdatePending ∧ e.pendingEtco2Params.isSome then
    if timerDue e.nextBreathTime e.respiratoryTime then
      let newEtco2 := e.pendingEtco2Params.getD e.curEtco2
      let newBreathInterval := breathIntervalOfRr newEtco2.rr
      { e with curEtco2 := newEtco2,
               lastBreathTime := some e.respiratoryTime,
               nextBreathTime := newBreathInterval.map (fun i => e.respiratoryTime + i),
               isEtco2UpdatePending := false,
               pendingEtco2Params := none }
    else e
  else
    if timerDue e.nextBreathTime e.respiratoryTime then
      match breathIntervalOfRr e.curEtco2.rr with
      | some i => resetBreathTiming (some i) e
      | none => e
    else e

/-- The second block of _checkAndResetTimers: at a beat boundary (beat-based
generators) record the beat, recompute the next beat time and apply any
pending SpO2 / ABP shape updates; at a compression boundary (CPR artifact)
reschedule the compression and likewise apply pending shape updates.  rand
models the Math.random() draw consumed by _calculateNextBeatTime. -/
def checkCardiacTimers (rand : ℚ) (e : Engine) : Engine :=
  let p := e.curEcg.params
  if beatBasedGenerator p then
    if timerDue e.nextBeatTime e.rhythmTime then
      let e1 := { e with lastBeatTime := e.nextBeatTime }
      let e2 := { e1 with nextBeatTime := calcNextBeatTime e1 rand }
      let e3 :=
        if e2.isSpo2UpdatePending ∧ e2.pendingSpo2Params.isSome then
          { e2 with
              curSpo2 := { e2.curSpo2 with shape := (e2.pendingSpo2Params.getD e2.curSpo2).shape },
              isSpo2UpdatePending := false, pendingSpo2Params := none }
        else e2
      if e3.isAbpUpdatePending ∧ e3.pendingAbpParams.isSome then
        { e3 with
            curAbp := { e3.curAbp with shape := (e3.pendingAbpParams.getD e3.curAbp).shape },
            isAbpUpdatePending := false, pendingAbpParams := none }
      else e3
    else e
  else if p.generatorType = some .artifact ∧ p.artifactType = some cprTag then
    if timerDue e.nextCompressionTime e.rhythmTime then
      let e1 := resetCompressionTiming e
      let e2 :=
        if e1.isSpo2UpdatePending ∧ e1.pendingSpo2Params.isSome then
          { e1 with
              curSpo2 := { e1.curSpo2 with shape := (e1.pendingSpo2Params.getD e1.curSpo2).shape },
              isSpo2UpdatePending := false, pendingSpo2Params := none }
        else e1
      if e2.isAbpUpdatePending ∧ e2.pendingAbpParams.isSome then
        { e2 with
            curAbp := { e2.curAbp with shape := (e2.pendingAbpParams.getD e2.curAbp).shape },
            isAbpUpdatePending := false, pendingAbpParams := none }
      else e2
    else e
  else e

/-- _checkAndResetTimers: its two sequential blocks, breath first. -/
def checkAndResetTimers (rand : ℚ) (e : Engine) : Engine :=
  checkCardiacTimers rand (checkBreathTimers e)

/-- The timing-and-parameter part of updateWaveforms: advance the cardiac and
respiratory clocks by one fixed step and run _checkAndResetTimers.  The
per-channel sample generation and sweep-buffer write of updateWaveforms do
not touch any of the modelled state and are outside this embedding. -/
def updateWaveformsTimers (step rand : ℚ) (e : Engine) : Engine :=
  checkAndResetTimers rand
    { e with rhythmTime := e.rhythmTime + step,
             respiratoryTime := e.respiratoryTime + step }

/-! ### Continuous interpolation (_animationLoop, script.js) -/

/-- One per-callback interpolation step of a continuously interpolated
numeric field in _animationLoop: current += (target - current) * rate * dt
while the gap exceeds the snap threshold, otherwise assign the target
exactly (the source leaves the value untouched when it already equals the
target, which is the same value). -/
def interpolateValue (cur target rate snap dt : ℚ) : ℚ :=
  let diff := target - cur
  if snap < |diff| then cur + diff * rate * dt
  else if cur = target then cur else target

/-- The fixed-heart-rate test of the HR interpolation branch of
_animationLoop: isFlat / isChaotic / isPEA / isArtifact flags or the
vt_pulseless rhythm key. -/
def fixedHrRhythm (c : EcgChannel) : Prop :=
  c.params.isFlat.getD false = true ∨ c.params.isChaotic.getD false = true ∨
    c.params.isPEA.getD false = true ∨ c.params.isArtifact.getD false = true ∨
    c.rhythm = "vt_pulseless"

instance (c : EcgChannel) : Decidable (fixedHrRhythm c) := by
  unfold fixedHrRhythm
  infer_instance

/-- The heart-rate interpolation branch of _animationLoop: like
interpolateValue, except that a rhythm that pins the heart rate forces
currentParams.ecg.hr to 0 instead of interpolating.  (The source tests the
negation of the flag disjunction first; the branches are flipped here.) -/
def hrInterpolationStep (c : EcgChannel) (targetHr rate snap dt : ℚ) : ℚ :=
  let diff := targetHr - c.hr
  if snap < |diff| then
    if fixedHrRhythm c then (if c.hr = 0 then c.hr else 0)
    else c.hr + diff * rate * dt
  else if c.hr = targetHr then c.hr else targetHr

/-! ### initiateParameterChange, SpO2 / ABP blocks (script.js) -/

/-- The SpO2-relevant effect of initiateParameterChange: the function first
replaces interpolationTargetParams with a deep copy of targetParams
(script.js line 965), and only afterwards compares the requested SpO2
target (value, shape) against that freshly synced snapshot (lines
1052-1071).  The comparison therefore always finds them equal, so the
pending-shape-update branch — including the no_signal recovery path inside
it — is unreachable; it is kept here exactly as in the source.  The
JSON-string comparison of the source is the componentwise comparison of
(value, shape), with a missing snapshot comparing as different. -/
def initiateParameterChangeSpo2 (target : Spo2Params) (e : Engine) : Engine :=
  let oldSpo2Shape := e.curSpo2.shape
  let e := { e with itpSpo2 := some target }
  if e.itpSpo2.map (fun itp => (itp.value, itp.shape)) = some (target.value, target.shape) then
    e
  else
    let e1 := { e with pendingSpo2Params := some target, isSpo2UpdatePending := true,
                       itpSpo2 := some target }
    if oldSpo2Shape = "no_signal" ∧ target.shape ≠ "no_signal" ∧ 0 < target.value then
      { e1 with curSpo2 := { e1.curSpo2 with shape := target.shape },
                isSpo2UpdatePending := false }
    else e1

/-- The ABP-relevant effect of initiateParameterChange (lines 965 and
1074-1091), in the same shape as the SpO2 block: the snapshot is synced at
line 965 before the (sys, dia, shape) comparison, so the pending branch —
including the zero-pressure recovery path — is unreachable dead code, kept
as in the source. -/
def initiateParameterChangeAbp (target : AbpParams) (e : Engine) : Engine :=
  let oldAbpShape := e.curAbp.shape
  let e := { e with itpAbp := some target }
  if e.itpAbp.map (fun itp => (itp.sys, itp.dia, itp.shape)) =
      some (target.sys, target.dia, target.shape) then
    e
  else
    let e1 := { e with pendingAbpParams := some target, isAbpUpdatePending := true,
                       itpAbp := some target }
    if oldAbpShape = "damped" ∧ (e.curAbp.sys = 0 ∨ e.curAbp.dia = 0) ∧
        (0 < target.sys ∨ 0 < target.dia) then
      { e1 with curAbp := { e1.curAbp with shape := target.shape },
                isAbpUpdatePending := false }
    else e1

/-- The SpO2 shape reconciliation of _animationLoop (script.js lines
1540-1542), run once per rendering callback after the numeric
interpolation (modelled separately by interpolateValue): outside a pending
update, a current shape differing from the interpolation target is
replaced by the target shape immediately. -/
def animLoopApplySpo2Shape (e : Engine) : Engine :=
  match e.itpSpo2 with
  | none => e
  | some itp =>
    if e.curSpo2.shape ≠ itp.shape ∧ e.isSpo2UpdatePending = false then
      { e with curSpo2 := { e.curSpo2 with shape := itp.shape } }
    else e

/-- The ABP shape reconciliation of _animationLoop (script.js lines
1571-1573), the ABP twin of animLoopApplySpo2Shape. -/
def animLoopApplyAbpShape (e : Engine) : Engine :=
  match e.itpAbp with
  | none => e
  | some itp =>
    if e.curAbp.shape ≠ itp.shape ∧ e.isAbpUpdatePending = false then
      { e with curAbp := { e.curAbp with shape := itp.shape } }
    else e

/-! ### handleRemoteParamUpdate, ECG part (script.js) -/

/-- The ECG part of handleRemoteParamUpdate, scoped to the ecg channel: the
received ecg object replaces targetParams.ecg wholesale; its params field is
then populated from the rhythm catalog when the received rhythm identifier is
a known, non-empty key and replaced by the empty object otherwise; when the
simulation is not running the updated target is additionally copied straight
into currentParams.ecg (when it is running, the copy happens later through
initiateParameterChange).  catalog models the read-only RHYTHM_PARAMS table
(none = no entry; the table itself lives in rhythms.js).  Returns the pair
(targetParams.ecg, currentParams.ecg). -/
def handleRemoteParamUpdateEcg (catalog : String → Option EcgRuntimeParams)
    (received : EcgChannel) (running : Bool) (cur : EcgChannel) :
    EcgChannel × EcgChannel :=
  let target := received
  let target :=
    if target.rhythm ≠ "" ∧ (catalog target.rhythm).isSome then
      { target with params := (catalog target.rhythm).getD emptyEcgParams }
    else
      { target with params := emptyEcgParams }
  if running then (target, cur) else (target, target)

/-! ### The catch-up loop of _animationLoop (script.js) -/

/-- The catch-up while loop of _animationLoop:
while (accumulator >= simulationStep) run one fixed step and subtract the
step.  catchUpSteps step acc is the number of iterations the loop performs
for a given accumulator value (the accumulator is the previous remainder
plus the elapsed wall-clock delta). -/
def catchUpSteps (step acc : ℚ) : ℕ :=
  if h : 0 < step ∧ step ≤ acc then catchUpSteps step (acc - step) + 1 else 0
termination_by (⌊acc / step⌋).toNat
decreasing_by
  obtain ⟨hs, hle⟩ := h
  have h1 : (acc - step) / step = acc / step - 1 := by
    field_simp
  have h2 : ⌊(acc - step) / step⌋ = ⌊acc / step⌋ - 1 := by
    rw [h1]
    exact_mod_cast Int.floor_sub_int (acc / step) 1
  have h3 : (1 : ℤ) ≤ ⌊acc / step⌋ := by
    rw [Int.le_floor]
    push_cast
    exact (one_le_div hs).2 hle
  rw [h2]
  omega

/-! ### generateAVBlock, Wenckebach path (ecgGenerators/avBlockGenerator.js) -/

/-- The mutable state of generateAVBlock restricted to the fields read and
written on the blockType = mobitz1 (Wenckebach) path; the Mobitz II counters
and the escape timer are never consulted on this path and are omitted. -/
structure AVBlockMobitz1State where
  lastPTime : Option ℚ    -- none models the -Infinity initialization
  nextPTime : ℚ
  nextQRSTime : Option ℚ  -- none models the Infinity parking value
  wenckebachCycleBeat : ℕ
  currentPR : ℚ
  droppedLast : Bool
  deriving DecidableEq

/-- The state generateAVBlock builds on its first invocation for a mobitz1
rhythm (prStart stands for params.prIntervalStart ?? 0.16); droppedLast is
initially absent, i.e. falsy. -/
def avBlockInitMobitz1 (prStart currentTime : ℚ) : AVBlockMobitz1State :=
  { lastPTime := none, nextPTime := currentTime, nextQRSTime := some currentTime,
    wenckebachCycleBeat := 0, currentPR := prStart, droppedLast := false }

/-- The atrial-event block of generateAVBlock for blockType = mobitz1,
executed when currentTime has reached nextPTime: advance the atrial schedule,
then reset the conduction delay and cycle counter if the previous beat was
dropped, then either drop this P wave (cycle counter has reached
wenckebachRatioBeats) or conduct it with the accumulated delay, scheduling
the QRS at lastPTime + delay and incrementing the delay for the next
conducted beat.  Returns the updated state and some pr when this atrial
event conducted with delay pr, none when it was dropped. -/
def avBlockAtrialEventMobitz1 (prStart prInc : ℚ) (wenckebachRatioBeats : ℕ)
    (pInterval : ℚ) (s : AVBlockMobitz1State) : AVBlockMobitz1State × Option ℚ :=
  let lastP := s.nextPTime
  let s1 := { s with lastPTime := some lastP, nextPTime := s.nextPTime + pInterval,
                     wenckebachCycleBeat := s.wenckebachCycleBeat + 1 }
  let s2 :=
    if s1.droppedLast then
      { s1 with currentPR := prStart, wenckebachCycleBeat := 1, droppedLast := false }
    else s1
  if wenckebachRatioBeats ≤ s2.wenckebachCycleBeat then
    ({ s2 with droppedLast := true }, none)
  else
    ({ s2 with currentPR := s2.currentPR + prInc,
               nextQRSTime := some (lastP + s2.currentPR) },
      some s2.currentPR)

/-- The mobitz1 state after n atrial events, starting from the freshly
initialized state at time 0. -/
def wenckebachStateAfter (prStart prInc : ℚ) (ratio : ℕ) (pInterval : ℚ) :
    ℕ → AVBlockMobitz1State
  | 0 => avBlockInitMobitz1 prStart 0
  | n + 1 =>
      (avBlockAtrialEventMobitz1 prStart prInc ratio pInterval
        (wenckebachStateAfter prStart prInc ratio pInterval n)).1

/-- The conduction outcome of atrial event n (0-based): some pr when the
event conducts with delay pr, none when it is dropped. -/
def wenckebachOutcome (prStart prInc : ℚ) (ratio : ℕ) (pInterval : ℚ) (n : ℕ) :
    Option ℚ :=
  (avBlockAtrialEventMobitz1 prStart prInc ratio pInterval
    (wenckebachStateAfter prStart prInc ratio pInterval n)).2

/-- The conduction-relevant projection of the mobitz1 state: cycle counter,
accumulated conduction delay, dropped-last flag. -/
def wenckCore (s : AVBlockMobitz1State) : ℕ × ℚ × Bool :=
  (s.wenckebachCycleBeat, s.currentPR, s.droppedLast)

/-! ### Concrete example states used to evaluate the embedding -/

/-- The shape string of an ordinary channel. -/
def normalShape : String := "normal"

/-- An example runtime rhythm-parameter object of the pqrst (normal sinus)
family, carrying the flag and timing fields the scheduler reads. -/
def normalParams : EcgRuntimeParams :=
  { generatorType := some .pqrst, isPEA := some false, isFlat := some false,
    isChaotic := some false, isArtifact := some false, irregular := some 0,
    baseHR := some 70, artifactType := none, artifact_freq := none }

/-- A normal-sinus ecg channel snapshot at a given heart rate. -/
def normalEcg (hr : ℚ) : EcgChannel :=
  { rhythm := "normal", hr := hr, params := normalParams }

/-- A mid-cycle engine snapshot: normal sinus at 75/min, SpO2 currently in
the no_signal state with nothing pending, strictly between the last and next
beat and breath boundaries. -/
def egNoSignalEngine : Engine :=
  { rhythmTime := 1 / 2, respiratoryTime := 1 / 2,
    lastBreathTime := some 0, nextBreathTime := some 4,
    lastBeatTime := some 0, nextBeatTime := some (4 / 5),
    lastCompressionTime := none, nextCompressionTime := none,
    curEcg := normalEcg 75,
    curSpo2 := { value := 0, shape := "no_signal" },
    curAbp := { sys := 120, dia := 80, shape := "normal" },
    curEtco2 := { valueKpa := 5, rr := 15, etco2Shape := "normal" },
    itpEcg := some (normalEcg 75),
    itpSpo2 := some { value := 0, shape := "no_signal" },
    itpAbp := some { sys := 120, dia := 80, shape := "normal" },
    isEtco2UpdatePending := false, pendingEtco2Params := none,
    isSpo2UpdatePending := false, pendingSpo2Params := none,
    isAbpUpdatePending := false, pendingAbpParams := none }

/-- A requested SpO2 target that recovers from no_signal: 98 % with the
normal pleth shape. -/
def spo2RecoverTarget : Spo2Params :=
  { value := 98, shape := "normal" }

/-- An engine snapshot for a beat-based rhythm whose rate is zero: the beat
schedule is parked at Infinity. -/
def zeroRateEngine : Engine :=
  { egNoSignalEngine with curEcg := normalEcg 0, itpEcg := none, nextBeatTime := none }

/-- An engine snapshot in which the operator has requested 75 → 120/min: the
interpolation target already carries 120 while the current channel still
renders 75. -/
def hr120Engine : Engine :=
  { egNoSignalEngine with itpEcg := some (normalEcg 120) }

/-- An example rhythm catalog with a single known identifier, used to
exercise the unknown-identifier path of handleRemoteParamUpdate. -/
def exampleCatalog : String → Option EcgRuntimeParams :=
  fun key => if key = "normal" then some normalParams else none

/-- A remote parameter update naming a rhythm identifier that has no catalog
entry. -/
def unknownRhythmRemote : EcgChannel :=
  { rhythm := "rhythm_xyz", hr := 80, params := emptyEcgParams }

/-- A PqrstParams record with every field absent: generatePQRST then runs
entirely on its source defaults. -/
def defaultPqrstParams : PqrstParams :=
  { p_amp := none, t_amp := none, qrs_amp := none, q_amp_factor := none,
    s_amp_factor := none, pr_interval := none, qrs_width := none,
    t_width := none, t_mean_offset := none, hasP := none, hasT := none,
    st_elevation_amp := none, p_duration := none }

/-! ## Theorems -/

/-- Rat.floor agrees with the Int.floor of the FloorRing instance. -/
theorem rat_floor_eq_floor (q : ℚ) : q.floor = ⌊q⌋ := by
  rw [Rat.floor_def', Rat.floor_def]

/-- On nonnegative inputs jsTrunc is the floor. -/
theorem jsTrunc_eq_floor (q : ℚ) (h : 0 ≤ q) : jsTrunc q = ⌊q⌋ := by
  rw [jsTrunc, if_pos h, rat_floor_eq_floor]

/-- jsRem is the identity on an elapsed time already inside the cycle. -/
theorem jsRem_of_lt {x d : ℚ} (h0 : 0 ≤ x) (hlt : x < d) : jsRem x d = x := by
  have hd : 0 < d := lt_of_le_of_lt h0 hlt
  have hq0 : 0 ≤ x / d := div_nonneg h0 hd.le
  have hq1 : x / d < 1 := (div_lt_one hd).2 hlt
  have hz : ⌊x / d⌋ = 0 := Int.floor_eq_zero_iff.2 ⟨hq0, hq1⟩
  rw [jsRem, jsTrunc_eq_floor _ hq0, hz]
  push_cast
  ring

/-- The double remainder ((x % d) + d) % d used by the capnogram shape is
the identity on an elapsed time already inside the cycle. -/
theorem jsRem_cycle {x d : ℚ} (h0 : 0 ≤ x) (hlt : x < d) :
    jsRem (jsRem x d + d) d = x := by
  have hd : 0 < d := lt_of_le_of_lt h0 hlt
  rw [jsRem_of_lt h0 hlt]
  have hq0 : 0 ≤ (x + d) / d := div_nonneg (by linarith) hd.le
  have hone : ⌊(x + d) / d⌋ = 1 := by
    rw [add_div, div_self hd.ne']
    rw [Int.floor_add_one, Int.floor_eq_zero_iff.2 ⟨div_nonneg h0 hd.le, (div_lt_one hd).2 hlt⟩]
    norm_num
  rw [jsRem, jsTrunc_eq_floor _ hq0, hone]
  push_cast
  ring

/-! ### Wenckebach conduction (claim C3) -/

/-- An atrial event fired from a cycle-start core (fresh initialization, or
the state left by a drop) conducts with the initial delay and opens a new
cycle. -/
theorem wenck_step_ready (prStart prInc pInt : ℚ) (s : AVBlockMobitz1State)
    (h : wenckCore s = (0, prStart, false) ∨ wenckCore s = (4, prStart + 3 * prInc, true)) :
    wenckCore (avBlockAtrialEventMobitz1 prStart prInc 4 pInt s).1 = (1, prStart + prInc, false) ∧
    (avBlockAtrialEventMobitz1 prStart prInc 4 pInt s).2 = some prStart := by
  obtain ⟨lp, np, nq, cb, pr, dl⟩ := s
  rcases h with h | h <;>
  · simp only [wenckCore, Prod.mk.injEq] at h
    obtain ⟨h1, h2, h3⟩ := h
    subst h1
    subst h2
    subst h3
    simp [avBlockAtrialEventMobitz1, wenckCore]

/-- The second atrial event of a cycle conducts with one increment added. -/
theorem wenck_step_one (prStart prInc pInt : ℚ) (s : AVBlockMobitz1State)
    (h : wenckCore s = (1, prStart + prInc, false)) :
    wenckCore (avBlockAtrialEventMobitz1 prStart prInc 4 pInt s).1 =
      (2, prStart + 2 * prInc, false) ∧
    (avBlockAtrialEventMobitz1 prStart prInc 4 pInt s).2 = some (prStart + prInc) := by
  obtain ⟨lp, np, nq, cb, pr, dl⟩ := s
  simp only [wenckCore, Prod.mk.injEq] at h
  obtain ⟨h1, h2, h3⟩ := h
  subst h1
  subst h2
  subst h3
  refine ⟨?_, ?_⟩ <;> (simp [avBlockAtrialEventMobitz1, wenckCore]; try ring)

/-- The third atrial event of a cycle conducts with two increments added. -/
theorem wenck_step_two (prStart prInc pInt : ℚ) (s : AVBlockMobitz1State)
    (h : wenckCore s = (2, prStart + 2 * prInc, false)) :
    wenckCore (avBlockAtrialEventMobitz1 prStart prInc 4 pInt s).1 =
      (3, prStart + 3 * prInc, false) ∧
    (avBlockAtrialEventMobitz1 prStart prInc 4 pInt s).2 = some (prStart + 2 * prInc) := by
  obtain ⟨lp, np, nq, cb, pr, dl⟩ := s
  simp only [wenckCore, Prod.mk.injEq] at h
  obtain ⟨h1, h2, h3⟩ := h
  subst h1
  subst h2
  subst h3
  refine ⟨?_, ?_⟩ <;> (simp [avBlockAtrialEventMobitz1, wenckCore]; try ring)

/-- The fourth atrial event of a cycle is dropped. -/
theorem wenck_step_three (prStart prInc pInt : ℚ) (s : AVBlockMobitz1State)
    (h : wenckCore s = (3, prStart + 3 * prInc, false)) :
    wenckCore (avBlockAtrialEventMobitz1 prStart prInc 4 pInt s).1 =
      (4, prStart + 3 * prInc, true) ∧
    (avBlockAtrialEventMobitz1 prStart prInc 4 pInt s).2 = none := by
  obtain ⟨lp, np, nq, cb, pr, dl⟩ := s
  simp only [wenckCore, Prod.mk.injEq] at h
  obtain ⟨h1, h2, h3⟩ := h
  subst h1
  subst h2
  subst h3
  simp [avBlockAtrialEventMobitz1, wenckCore]

/-- After every full drop cycle of 4 atrial events the core state is back at
a cycle start. -/
theorem wenck_core_at_cycle (prStart prInc pInt : ℚ) :
    ∀ m : ℕ,
      wenckCore (wenckebachStateAfter prStart prInc 4 pInt (4 * m)) = (0, prStart, false) ∨
      wenckCore (wenckebachStateAfter prStart prInc 4 pInt (4 * m)) =
        (4, prStart + 3 * prInc, true)
  | 0 => Or.inl (by simp [wenckebachStateAfter, avBlockInitMobitz1, wenckCore])
  | m + 1 => by
    have ih := wenck_core_at_cycle prStart prInc pInt m
    have h1 := wenck_step_ready prStart prInc pInt _ ih
    have h2 := wenck_step_one prStart prInc pInt
      ((avBlockAtrialEventMobitz1 prStart prInc 4 pInt
        (wenckebachStateAfter prStart prInc 4 pInt (4 * m))).1) h1.1
    have h3 := wenck_step_two prStart prInc pInt _ h2.1
    have h4 := wenck_step_three prStart prInc pInt _ h3.1
    refine Or.inr ?_
    have hidx : 4 * (m + 1) = 4 * m + 1 + 1 + 1 + 1 := by ring
    rw [hidx]
    simpa [wenckebachStateAfter] using h4.1

/-- Claim C3: for the Wenckebach AV-block generator (blockType mobitz1) with
wenckebachRatioBeats = 4, every cycle of 4 consecutive atrial events after
initialization conducts exactly its first three events and drops the fourth;
the conduction delay used on the successive conducted beats of one cycle is
prStart, prStart + prInc, prStart + 2·prInc — strictly increasing by the
fixed increment — and the delay and the beat-in-cycle counter are reset on
the first conducted beat after the dropped beat (each new cycle conducts
with the initial delay again). -/
theorem claimC3_wenckebach_cycle (prStart prInc pInt : ℚ) (hInc : 0 < prInc) (m : ℕ) :
    wenckebachOutcome prStart prInc 4 pInt (4 * m) = some prStart ∧
    wenckebachOutcome prStart prInc 4 pInt (4 * m + 1) = some (prStart + prInc) ∧
    wenckebachOutcome prStart prInc 4 pInt (4 * m + 2) = some (prStart + 2 * prInc) ∧
    wenckebachOutcome prStart prInc 4 pInt (4 * m + 3) = none ∧
    prStart < prStart + prInc ∧ prStart + prInc < prStart + 2 * prInc := by
  have ih := wenck_core_at_cycle prStart prInc pInt m
  have h1 := wenck_step_ready prStart prInc pInt _ ih
  have h2 := wenck_step_one prStart prInc pInt
    ((avBlockAtrialEventMobitz1 prStart prInc 4 pInt
      (wenckebachStateAfter prStart prInc 4 pInt (4 * m))).1) h1.1
  have h3 := wenck_step_two prStart prInc pInt _ h2.1
  have h4 := wenck_step_three prStart prInc pInt _ h3.1
  refine ⟨h1.2, ?_, ?_, ?_, by linarith, by linarith⟩
  · show (avBlockAtrialEventMobitz1 prStart prInc 4 pInt
      (wenckebachStateAfter prStart prInc 4 pInt (4 * m + 1))).2 = some (prStart + prInc)
    simpa [wenckebachStateAfter] using h2.2
  · simpa [wenckebachOutcome, wenckebachStateAfter] using h3.2
  · simpa [wenckebachOutcome, wenckebachStateAfter] using h4.2

/-- Witness for claim C3 at the source defaults prIntervalStart = 0.16,
prIncrement = 0.06 and an atrial interval of 6/7 s (70/min), second cycle:
event 4 conducts with the reset delay 0.16 and event 7 is dropped. -/
theorem claimC3_witness :
    0 < (3 / 50 : ℚ) ∧
    wenckebachOutcome (4 / 25) (3 / 50) 4 (6 / 7) 4 = some (4 / 25) ∧
    wenckebachOutcome (4 / 25) (3 / 50) 4 (6 / 7) 7 = none := by
  have h := claimC3_wenckebach_cycle (4 / 25) (3 / 50) (6 / 7) (by norm_num) 1
  exact ⟨by norm_num, by simpa using h.1, by simpa using h.2.2.2.1⟩

/-! ### Capnogram active-shape cap (claim C9) -/

/-- Claim C9: the capnogram shape confines the active waveform to at most
ETCO2_MAX_ACTIVE_SHAPE_DURATION = 60/20 = 3 s of the breath cycle,
independent of the breath period: at any elapsed-cycle time at or beyond
min(breathDuration, 3) and before the next breath boundary the output is 0,
for every breath duration, ETCO2 value and shape variant. -/
theorem claimC9_etco2_active_cap (P : MathPrims) (now : ℚ) (d x : ℚ)
    (etco2Value : Option ℚ) (shapeType : String)
    (hd : 0 < d) (h0 : 0 ≤ x)
    (hcap : min d ETCO2_MAX_ACTIVE_SHAPE_DURATION ≤ x) (hxd : x < d) :
    ETCO2_MAX_ACTIVE_SHAPE_DURATION = 3 ∧
    generateEtco2WaveformShape P now (some x) (some d) etco2Value shapeType = 0 := by
  constructor
  · norm_num [ETCO2_MAX_ACTIVE_SHAPE_DURATION, ETCO2_MAX_SHAPE_REFERENCE_RR]
  · have hrem := jsRem_cycle h0 hxd
    have hnlt : ¬ x < min d ETCO2_MAX_ACTIVE_SHAPE_DURATION := not_lt.2 hcap
    simp only [generateEtco2WaveformShape, h0, if_true, hrem]
    simp [hd.not_le, hnlt]

/-- Witness for claim C9: respiratory rate 6/min (a 10 s breath period),
sampled 5 s into the breath — past the 3 s active cap — yields 0. -/
theorem claimC9_witness :
    ETCO2_MAX_ACTIVE_SHAPE_DURATION = 3 ∧
    generateEtco2WaveformShape pZero 0 (some 5) (some 10) (some (53 / 10)) normalShape = 0 := by
  have h := claimC9_etco2_active_cap pZero 0 10 5 (some (53 / 10)) normalShape
    (by norm_num) (by norm_num)
    (by norm_num [ETCO2_MAX_ACTIVE_SHAPE_DURATION, ETCO2_MAX_SHAPE_REFERENCE_RR]) (by norm_num)
  exact h

/-! ### ABP internal coercions (claim C10) -/

/-- Claim C10: in generateAbpWaveformShape, for every input with
systolic ≥ 1 or diastolic ≥ 1 the internally coerced pressures
safeDia = max(0, dia) and safeSys = max(safeDia + 1, sys) leave a pulse
pressure of at least 1, so the no-forward-pulse-pressure early return is
unreachable and the function equals its main computation path; the flat-zero
guard is not taken either, and every returned value lies in
[0, safeSys + 15]. -/
theorem claimC10_abp_coercion (P : MathPrims) (now : ℚ) (t : Option ℚ)
    (bd : Option ℚ) (sys dia : ℚ) (shape : String) (h : 1 ≤ sys ∨ 1 ≤ dia) :
    1 ≤ max (max 0 dia + 1) sys - max 0 dia ∧
    generateAbpWaveformShape P now t bd (some sys) (some dia) shape =
      abpMainPath P now t bd (some sys) (some dia) shape ∧
    0 ≤ generateAbpWaveformShape P now t bd (some sys) (some dia) shape ∧
    generateAbpWaveformShape P now t bd (some sys) (some dia) shape ≤
      max (max 0 dia + 1) sys + 15 := by
  have hmax := le_max_left (max 0 dia + 1) sys
  have hdia0 : (0 : ℚ) ≤ max 0 dia := le_max_left 0 dia
  have hpp : 1 ≤ max (max 0 dia + 1) sys - max 0 dia := by linarith
  have hguard : ¬ (sys < 1 ∧ dia < 1) := by
    rcases h with h | h
    · exact fun hc => absurd h (not_le.2 hc.1)
    · exact fun hc => absurd h (not_le.2 hc.2)
  have hppneg : ¬ (max (max 0 dia + 1) sys - max 0 dia ≤ 0) := by linarith
  have heq : generateAbpWaveformShape P now t bd (some sys) (some dia) shape =
      abpMainPath P now t bd (some sys) (some dia) shape := by
    simp only [generateAbpWaveformShape, abpMainPath, ensureFinite, Option.getD]
    rw [if_neg hguard, if_neg hppneg]
  refine ⟨hpp, heq, ?_, ?_⟩
  · rw [heq]
    simp only [abpMainPath, ensureFinite, Option.getD]
    exact le_max_left 0 _
  · rw [heq]
    simp only [abpMainPath, ensureFinite, Option.getD]
    exact max_le (by linarith) (min_le_left _ _)

/-- Witness for claim C10 at 120/80 with the zero Math interpretation. -/
theorem claimC10_witness :
    1 ≤ max (max 0 (80 : ℚ) + 1) 120 - max 0 (80 : ℚ) ∧
    0 ≤ generateAbpWaveformShape pZero 0 (some 0) (some 1) (some 120) (some 80) normalShape ∧
    generateAbpWaveformShape pZero 0 (some 0) (some 1) (some 120) (some 80) normalShape ≤
      max (max 0 (80 : ℚ) + 1) 120 + 15 := by
  have h := claimC10_abp_coercion pZero 0 (some 0) (some 1) 120 80 normalShape
    (Or.inl (by norm_num))
  exact ⟨h.1, h.2.2.1, h.2.2.2⟩

/-! ### Shape-function determinism (claim C7) -/

/-- Claim C7 (amended): the cardiac-complex function generatePQRST is pure
and deterministic over its full domain — it never consults the ambient wall
clock (nor randomness or state), so two calls with identical argument
tuples agree for every elapsed time, including negative ones; the three
shape functions of waveformUtils.js are deterministic in their arguments
whenever the elapsed-time argument is a finite nonnegative number — the
wall clock (now) is then never consulted — and all of this holds for every
interpretation of the Math primitives. -/
theorem claimC7_shape_determinism (P : MathPrims) (now1 now2 : ℚ) (x : ℚ)
    (hx : 0 ≤ x) (dur val sys dia : Option ℚ) (shape : String)
    (t2 : ℚ) (pq : PqrstParams) :
    generatePlethPulseShape P now1 (some x) dur val shape =
      generatePlethPulseShape P now2 (some x) dur val shape ∧
    generateAbpWaveformShape P now1 (some x) dur sys dia shape =
      generateAbpWaveformShape P now2 (some x) dur sys dia shape ∧
    generateEtco2WaveformShape P now1 (some x) dur val shape =
      generateEtco2WaveformShape P now2 (some x) dur val shape ∧
    generatePQRST P now1 t2 pq = generatePQRST P now2 t2 pq := by
  refine ⟨?_, ?_, ?_, rfl⟩ <;>
    simp only [generatePlethPulseShape, generateAbpWaveformShape,
      generateEtco2WaveformShape, hx, if_true]

/-- Witness for the amended claim C7 at two different wall-clock readings;
the cardiac complex agrees even at a negative elapsed time. -/
theorem claimC7_witness :
    generateEtco2WaveformShape pZero 0 (some 1) (some 4) (some (53 / 10)) normalShape =
      generateEtco2WaveformShape pZero 7 (some 1) (some 4) (some (53 / 10)) normalShape ∧
    generatePQRST pZero 0 (-1) defaultPqrstParams =
      generatePQRST pZero 7 (-1) defaultPqrstParams := by
  have h := claimC7_shape_determinism pZero 0 7 1 (by norm_num) (some 4) (some (53 / 10))
    (some 120) (some 80) normalShape (-1) defaultPqrstParams
  exact ⟨h.2.2.1, h.2.2.2⟩

/-- Counterexample to claim C7 as stated: with a null elapsed-time argument
(part of the functions' accepted domain) the capnogram shape substitutes the
wall clock, so two calls with bit-identical argument tuples made at
different times return different outputs (0 during inspiration vs the
plateau value 5.3). -/
theorem claimC7_counterexample :
    generateEtco2WaveformShape pZero 0 none (some 4) (some (53 / 10)) normalShape = 0 ∧
    generateEtco2WaveformShape pZero (3 / 2) none (some 4) (some (53 / 10)) normalShape =
      53 / 10 ∧
    (0 : ℚ) ≠ 53 / 10 := by
  have s1 : ("normal" : String) ≠ "disconnect" := by decide
  have s2 : ("normal" : String) ≠ "bronchospasm" := by decide
  have s3 : ("normal" : String) ≠ "leak_obstruction" := by decide
  refine ⟨?_, ?_, by norm_num⟩
  · have h := jsRem_cycle (x := (0 : ℚ)) (d := 4) le_rfl (by norm_num)
    simp only [generateEtco2WaveformShape, normalShape, ensureFinite, Option.getD,
      ETCO2_MAX_ACTIVE_SHAPE_DURATION, ETCO2_MAX_SHAPE_REFERENCE_RR]
    norm_num [h, s1]
  · have h := jsRem_cycle (x := (3 / 2 : ℚ)) (d := 4) (by norm_num) (by norm_num)
    simp only [generateEtco2WaveformShape, normalShape, ensureFinite, Option.getD,
      ETCO2_MAX_ACTIVE_SHAPE_DURATION, ETCO2_MAX_SHAPE_REFERENCE_RR]
    norm_num [h, s1, s2, s3]

/-! ### Numeric interpolation (claim C5) -/

/-- Claim C5 (amended): one interpolation step with rate · dt ≤ 1 moves the
value toward the fixed target without overshooting — the remaining gap
shrinks, the new value stays between the old value and the target, the
approach never changes side (no oscillation), and once the remaining gap is
within the snap threshold the value lands exactly on the target. -/
theorem claimC5_interpolation_step (cur target rate snap dt : ℚ)
    (hdt : 0 < dt) (hrate : 0 < rate) (hsnap : 0 ≤ snap) (hclamp : rate * dt ≤ 1) :
    |target - interpolateValue cur target rate snap dt| ≤ |target - cur| ∧
    min cur target ≤ interpolateValue cur target rate snap dt ∧
    interpolateValue cur target rate snap dt ≤ max cur target ∧
    0 ≤ (target - interpolateValue cur target rate snap dt) * (target - cur) ∧
    (|target - cur| ≤ snap → interpolateValue cur target rate snap dt = target) := by
  unfold interpolateValue
  have hθ0 : 0 ≤ rate * dt := by positivity
  by_cases hgap : snap < |target - cur|
  · rw [if_pos hgap]
    have h1 : 0 ≤ 1 - rate * dt := by linarith
    have hsub : target - (cur + (target - cur) * rate * dt) =
        (target - cur) * (1 - rate * dt) := by ring
    refine ⟨?_, ?_, ?_, ?_, ?_⟩
    · rw [hsub, abs_mul, abs_of_nonneg h1]
      exact mul_le_of_le_one_right (abs_nonneg _) (by linarith)
    · rcases le_total cur target with hle | hle
      · rw [min_eq_left hle]
        nlinarith
      · rw [min_eq_right hle]
        nlinarith
    · rcases le_total cur target with hle | hle
      · rw [max_eq_right hle]
        nlinarith
      · rw [max_eq_left hle]
        nlinarith
    · rw [hsub]
      nlinarith [sq_nonneg (target - cur)]
    · intro hle
      exact absurd hgap (not_lt.2 hle)
  · rw [if_neg hgap]
    have hv : (if cur = target then cur else target) = target := by
      by_cases hct : cur = target
      · rw [if_pos hct, hct]
      · rw [if_neg hct]
    rw [hv]
    refine ⟨by simp, min_le_right _ _,
      le_max_right _ _, by simp, fun _ => rfl⟩

/-- Witness for the amended claim C5 at the config.js constants and a 16 ms
frame delta. -/
theorem claimC5_witness :
    |120 - interpolateValue 75 120 VITAL_INTERPOLATION_RATE INTERPOLATION_SNAP_THRESHOLD
      (2 / 125)| ≤ |(120 : ℚ) - 75| ∧
    min (75 : ℚ) 120 ≤ interpolateValue 75 120 VITAL_INTERPOLATION_RATE
      INTERPOLATION_SNAP_THRESHOLD (2 / 125) := by
  have h := claimC5_interpolation_step 75 120 VITAL_INTERPOLATION_RATE
    INTERPOLATION_SNAP_THRESHOLD (2 / 125) (by norm_num)
    (by norm_num [VITAL_INTERPOLATION_RATE]) (by norm_num [INTERPOLATION_SNAP_THRESHOLD])
    (by norm_num [VITAL_INTERPOLATION_RATE])
  exact ⟨h.1, h.2.1⟩

/-- Counterexample to claim C5 as stated: the interpolation step is not
clamped per callback, so a single callback with a 10 s delta (rate · dt = 3)
moves a heart-rate readout of 75 toward target 120 all the way to 210 —
overshooting past the target. -/
theorem claimC5_counterexample :
    interpolateValue 75 120 VITAL_INTERPOLATION_RATE INTERPOLATION_SNAP_THRESHOLD 10 = 210 ∧
    (75 : ℚ) < 120 ∧ (120 : ℚ) < 210 := by
  refine ⟨?_, by norm_num, by norm_num⟩
  have habs : |(120 : ℚ) - 75| = 45 := by
    rw [show (120 : ℚ) - 75 = 45 by norm_num]
    exact abs_of_pos (by norm_num)
  unfold interpolateValue
  rw [if_pos (by rw [habs]; norm_num [INTERPOLATION_SNAP_THRESHOLD])]
  norm_num [VITAL_INTERPOLATION_RATE]

/-! ### The catch-up loop is not clamped (claim C6) -/

/-- The exact iteration count of the catch-up loop: an accumulator of
n · step + r with 0 ≤ r < step runs the loop exactly n times. -/
theorem catchUpSteps_exact (step r : ℚ) (hs : 0 < step) (hr0 : 0 ≤ r) (hrs : r < step) :
    ∀ n : ℕ, catchUpSteps step (n * step + r) = n
  | 0 => by
    have hc : ¬ (0 < step ∧ step ≤ (0 : ℕ) * step + r) := by
      push_cast
      rintro ⟨-, h2⟩
      nlinarith
    rw [catchUpSteps, dif_neg hc]
  | n + 1 => by
    have hc : 0 < step ∧ step ≤ (n + 1 : ℕ) * step + r := by
      refine ⟨hs, ?_⟩
      push_cast
      nlinarith [Nat.cast_nonneg (α := ℚ) n]
    rw [catchUpSteps, dif_pos hc]
    have harith : ((n + 1 : ℕ) : ℚ) * step + r - step = (n : ℕ) * step + r := by
      push_cast
      ring
    rw [harith, catchUpSteps_exact step r hs hr0 hrs n]

/-- Claim C6 (amended): the number of fixed logical steps executed by one
rendering-loop callback is exactly the whole number of sample periods in the
accumulated wall-clock time — there is no clamp, so the count grows without
bound as the accumulated pause grows. -/
theorem claimC6_loop_count (step r : ℚ) (n : ℕ) (hs : 0 < step)
    (hr0 : 0 ≤ r) (hrs : r < step) :
    catchUpSteps step (n * step + r) = n :=
  catchUpSteps_exact step r hs hr0 hrs n

/-- Witness for the amended claim C6: at the 100 Hz sample period, an
accumulator of 3 steps plus a remainder runs exactly 3 catch-up steps. -/
theorem claimC6_witness :
    catchUpSteps (1 / SAMPLE_RATE) ((3 : ℕ) * (1 / SAMPLE_RATE) + 1 / 200) = 3 := by
  exact claimC6_loop_count (1 / SAMPLE_RATE) (1 / 200) 3 (by norm_num [SAMPLE_RATE])
    (by norm_num) (by norm_num [SAMPLE_RATE])

/-- Counterexample to claim C6 as stated: no bound clamps the number of
catch-up steps a single callback can execute — for every proposed clamp N a
long enough pause produces N + 1 steps in one callback. -/
theorem claimC6_counterexample :
    ¬ ∃ N : ℕ, ∀ dt : ℚ, 0 ≤ dt → catchUpSteps (1 / SAMPLE_RATE) dt ≤ N := by
  rintro ⟨N, hN⟩
  have hs : (0 : ℚ) < 1 / SAMPLE_RATE := by norm_num [SAMPLE_RATE]
  have h := hN ((N + 1 : ℕ) * (1 / SAMPLE_RATE)) (by positivity)
  rw [show ((N + 1 : ℕ) : ℚ) * (1 / SAMPLE_RATE) =
      (N + 1 : ℕ) * (1 / SAMPLE_RATE) + 0 by ring] at h
  rw [catchUpSteps_exact (1 / SAMPLE_RATE) 0 hs le_rfl hs (N + 1)] at h
  omega

/-! ### Engine phase lemmas -/

/-- The breath block of _checkAndResetTimers only writes the ETCO2 channel,
the breath timers and the ETCO2 pending flags: the result is always the
input engine with (at most) those five fields replaced. -/
theorem checkBreathTimers_eq (e : Engine) :
    ∃ cet lbt nbt pend pv, checkBreathTimers e =
      { e with curEtco2 := cet, lastBreathTime := lbt, nextBreathTime := nbt,
               isEtco2UpdatePending := pend, pendingEtco2Params := pv } := by
  unfold checkBreathTimers resetBreathTiming
  dsimp only
  split_ifs
  · exact ⟨_, _, _, _, _, rfl⟩
  · exact ⟨e.curEtco2, e.lastBreathTime, e.nextBreathTime, e.isEtco2UpdatePending,
      e.pendingEtco2Params, rfl⟩
  · cases breathIntervalOfRr e.curEtco2.rr
    · exact ⟨e.curEtco2, e.lastBreathTime, e.nextBreathTime, e.isEtco2UpdatePending,
        e.pendingEtco2Params, rfl⟩
    · exact ⟨e.curEtco2, _, _, e.isEtco2UpdatePending, e.pendingEtco2Params, rfl⟩
  · exact ⟨e.curEtco2, e.lastBreathTime, e.nextBreathTime, e.isEtco2UpdatePending,
      e.pendingEtco2Params, rfl⟩

/-- When the breath boundary has not been reached the breath block is the
identity. -/
theorem checkBreathTimers_not_due (e : Engine)
    (h : ¬ timerDue e.nextBreathTime e.respiratoryTime) :
    checkBreathTimers e = e := by
  unfold checkBreathTimers
  split_ifs <;> rfl

/-- When neither the beat nor the compression boundary has been reached the
cardiac block is the identity. -/
theorem checkCardiacTimers_not_due (rand : ℚ) (e : Engine)
    (hbeat : ¬ timerDue e.nextBeatTime e.rhythmTime)
    (hcomp : ¬ timerDue e.nextCompressionTime e.rhythmTime) :
    checkCardiacTimers rand e = e := by
  unfold checkCardiacTimers
  dsimp only
  split_ifs <;> rfl

/-- The cardiac block never writes the ETCO2 channel. -/
theorem checkCardiacTimers_curEtco2 (rand : ℚ) (e : Engine) :
    (checkCardiacTimers rand e).curEtco2 = e.curEtco2 := by
  unfold checkCardiacTimers resetCompressionTiming
  dsimp only
  split_ifs <;> rfl

/-- A beat schedule parked at Infinity stays parked through the cardiac
block: the beat branch never fires on it and no other branch writes
nextBeatTime. -/
theorem checkCardiacTimers_nextBeat_none (rand : ℚ) (e : Engine)
    (h : e.nextBeatTime = none) : (checkCardiacTimers rand e).nextBeatTime = none := by
  have hbeat : ¬ timerDue e.nextBeatTime e.rhythmTime := by
    rw [h]
    exact fun hx => hx
  unfold checkCardiacTimers resetCompressionTiming
  dsimp only
  split_ifs <;> exact h

/-- One full simulation tick keeps a beat schedule parked at Infinity
parked. -/
theorem updateWaveformsTimers_nextBeat_none (step rand : ℚ) (e : Engine)
    (hn : e.nextBeatTime = none) :
    (updateWaveformsTimers step rand e).nextBeatTime = none := by
  unfold updateWaveformsTimers checkAndResetTimers
  obtain ⟨a, b, c, d2, f, hbeq⟩ := checkBreathTimers_eq
    { e with rhythmTime := e.rhythmTime + step, respiratoryTime := e.respiratoryTime + step }
  rw [hbeq]
  exact checkCardiacTimers_nextBeat_none rand _ hn

/-- At a reached breath boundary with an update pending, the breath block
copies the pending ETCO2 snapshot into the current channel. -/
theorem checkBreathTimers_applies_pending (e : Engine) (pe : Etco2Params)
    (hp : e.isEtco2UpdatePending = true) (hpe : e.pendingEtco2Params = some pe)
    (hdue : timerDue e.nextBreathTime e.respiratoryTime) :
    (checkBreathTimers e).curEtco2 = pe := by
  unfold checkBreathTimers
  rw [if_pos (show e.isEtco2UpdatePending = true ∧ e.pendingEtco2Params.isSome = true from
    ⟨hp, by rw [hpe]; rfl⟩), if_pos hdue]
  simp [hpe]

/-! ### Beat interval and the zero-rate schedule (claim C1) -/

/-- Claim C1: for a beat-based generator (pqrst, avBlock or paced) whose
selected rate is r, the base beat interval computed by
_calculateNextBeatTime is exactly 60 / r when r > 0 (before the
irregularity multiplier); when r = 0 the interval is Infinity (none),
_calculateNextBeatTime parks nextBeatTime at Infinity, the beat boundary
test never fires on a parked schedule at any time, and a simulation tick
leaves the parked schedule parked — no beat is ever scheduled until the
rate becomes positive.  The embedding is total, so no division by zero or
arithmetic exception can occur. -/
theorem claimC1_beat_schedule (e : Engine) (rand step r : ℚ)
    (hgen : beatBasedGenerator (e.itpEcg.getD e.curEcg).params)
    (hr : selectedBeatRate (e.itpEcg.getD e.curEcg) = r) :
    (0 < r → rawBeatInterval r = some (60 / r)) ∧
    (r = 0 → rawBeatInterval r = none ∧ calcNextBeatTime e rand = none) ∧
    (e.nextBeatTime = none → ∀ t : ℚ, ¬ timerDue e.nextBeatTime t) ∧
    (e.nextBeatTime = none →
      ∀ n : ℕ, ((updateWaveformsTimers step rand)^[n] e).nextBeatTime = none) := by
  refine ⟨?_, ?_, ?_, ?_⟩
  · intro h0
    unfold rawBeatInterval
    rw [if_pos h0]
  · intro h0
    subst h0
    constructor
    · unfold rawBeatInterval
      norm_num
    · simp [calcNextBeatTime, beatIntervalOf, hr, rawBeatInterval]
  · intro hn t
    rw [hn]
    exact fun hx => hx
  · intro hn n
    have aux : ∀ (k : ℕ) (e2 : Engine), e2.nextBeatTime = none →
        ((updateWaveformsTimers step rand)^[k] e2).nextBeatTime = none := by
      intro k
      induction k with
      | zero => exact fun e2 h2 => h2
      | succ k ih =>
        intro e2 h2
        rw [Function.iterate_succ_apply]
        exact ih _ (updateWaveformsTimers_nextBeat_none step rand e2 h2)
    exact aux n e hn

/-- Witness for claim C1 on a normal-sinus engine with heart rate 0: the
interval is Infinity, nextBeatTime stays parked and a tick does not revive
the schedule. -/
theorem claimC1_witness :
    rawBeatInterval (selectedBeatRate (zeroRateEngine.itpEcg.getD zeroRateEngine.curEcg)) =
      none ∧
    calcNextBeatTime zeroRateEngine (1 / 2) = none ∧
    (((updateWaveformsTimers (1 / 100) (1 / 2))^[3]) zeroRateEngine).nextBeatTime = none := by
  have hne : selectedBeatRate (zeroRateEngine.itpEcg.getD zeroRateEngine.curEcg) = 0 := by
    simp [selectedBeatRate, zeroRateEngine, normalEcg, normalParams, egNoSignalEngine]
  have h := claimC1_beat_schedule zeroRateEngine (1 / 2) (1 / 100) 0
    (by left; rfl) hne
  exact ⟨by rw [hne]; exact (h.2.1 rfl).1, (h.2.1 rfl).2, h.2.2.2 rfl 3⟩

/-! ### Beat spacing follows the interpolation target (claim C2) -/

/-- Claim C2: _calculateNextBeatTime reads the heart rate from the
interpolation-target snapshot (interpolationTargetParams.ecg), not from the
interpolating currentParams — with the target at 120/min the computed beat
interval is 60/120 = 0.5 s for every current channel state — while one
interpolation step moves the displayed heart rate from 75 strictly toward
120 without reaching it, so the readout approaches 120 only gradually over
subsequent callbacks. -/
theorem claimC2_target_hr (e : Engine) (itp : EcgChannel) (rand dt : ℚ)
    (hitp : e.itpEcg = some itp)
    (hgen : itp.params.generatorType = some GeneratorType.pqrst)
    (hpea : itp.params.isPEA.getD false = false)
    (hvt : itp.rhythm ≠ "vt_pulseless")
    (hirr : itp.params.irregular.getD 0 = 0)
    (hhr : itp.hr = 120)
    (hdt0 : 0 < dt) (hdt1 : VITAL_INTERPOLATION_RATE * dt < 1) :
    beatIntervalOf (e.itpEcg.getD e.curEcg) rand = some (1 / 2) ∧
    75 < interpolateValue 75 120 VITAL_INTERPOLATION_RATE INTERPOLATION_SNAP_THRESHOLD dt ∧
    interpolateValue 75 120 VITAL_INTERPOLATION_RATE INTERPOLATION_SNAP_THRESHOLD dt < 120 := by
  have hsel : selectedBeatRate itp = 120 := by
    simp [selectedBeatRate, hgen, hpea, hvt, hhr]
  have hraw : rawBeatInterval (selectedBeatRate itp) = some (1 / 2) := by
    rw [hsel]
    unfold rawBeatInterval
    rw [if_pos (by norm_num)]
    norm_num
  refine ⟨?_, ?_, ?_⟩
  · rw [hitp]
    simp only [Option.getD_some]
    unfold beatIntervalOf
    rw [hraw]
    simp only [hirr]
    rw [if_neg (by norm_num)]
    rw [max_eq_right (by norm_num : (1 : ℚ) / 10 ≤ 1 / 2)]
  · have habs : |(120 : ℚ) - 75| = 45 := by
      rw [show (120 : ℚ) - 75 = 45 by norm_num]
      exact abs_of_pos (by norm_num)
    unfold interpolateValue
    rw [if_pos (by rw [habs]; norm_num [INTERPOLATION_SNAP_THRESHOLD])]
    unfold VITAL_INTERPOLATION_RATE at hdt1 ⊢
    nlinarith
  · have habs : |(120 : ℚ) - 75| = 45 := by
      rw [show (120 : ℚ) - 75 = 45 by norm_num]
      exact abs_of_pos (by norm_num)
    unfold interpolateValue
    rw [if_pos (by rw [habs]; norm_num [INTERPOLATION_SNAP_THRESHOLD])]
    unfold VITAL_INTERPOLATION_RATE at hdt1 ⊢
    nlinarith

/-- Witness for claim C2 on the 75 → 120 request with a 1 s callback
delta. -/
theorem claimC2_witness :
    beatIntervalOf (hr120Engine.itpEcg.getD hr120Engine.curEcg) 0 = some (1 / 2) ∧
    75 < interpolateValue 75 120 VITAL_INTERPOLATION_RATE INTERPOLATION_SNAP_THRESHOLD 1 ∧
    interpolateValue 75 120 VITAL_INTERPOLATION_RATE INTERPOLATION_SNAP_THRESHOLD 1 < 120 := by
  exact claimC2_target_hr hr120Engine (normalEcg 120) 0 1 rfl rfl rfl
    (by decide) rfl rfl (by norm_num) (by norm_num [VITAL_INTERPOLATION_RATE])

/-! ### Deferred channel fields (claim C4) -/

/-- The SpO2 pending-shape branch of initiateParameterChange is dead code:
because the comparison follows the line-965 snapshot sync, the function's
whole SpO2-relevant effect is to install the requested target as the
interpolation target.  currentParams.spo2 and the pending flags are left
untouched at request time. -/
theorem ipcSpo2_branch_dead (target : Spo2Params) (e : Engine) :
    initiateParameterChangeSpo2 target e = { e with itpSpo2 := some target } := by
  have hc : Option.map (fun itp : Spo2Params => (itp.value, itp.shape)) (some target) =
      some (target.value, target.shape) := rfl
  unfold initiateParameterChangeSpo2
  dsimp only
  rw [if_pos hc]

/-- The ABP pending-shape branch of initiateParameterChange is dead code,
for the same reason as the SpO2 branch. -/
theorem ipcAbp_branch_dead (target : AbpParams) (e : Engine) :
    initiateParameterChangeAbp target e = { e with itpAbp := some target } := by
  have hc : Option.map (fun itp : AbpParams => (itp.sys, itp.dia, itp.shape)) (some target) =
      some (target.sys, target.dia, target.shape) := rfl
  unfold initiateParameterChangeAbp
  dsimp only
  rw [if_pos hc]

/-- Claim C4 (amended): the ETCO2 fields are deferred as claimed — a
simulation tick that crosses no breath, beat or compression boundary leaves
the deferred fields of currentParams (the ETCO2 channel and the SpO2 / ABP
shapes) unchanged, and a pending ETCO2 update is copied into currentParams
exactly when the breath boundary is crossed.  The SpO2 and ABP shapes,
however, are never deferred: initiateParameterChange merely installs the
requested target as the interpolation target (its pending-shape branches
compare against the snapshot just synced at line 965 and are unreachable),
and the next rendering callback copies a changed shape from the
interpolation target into currentParams immediately, regardless of cycle
boundaries. -/
theorem claimC4_deferred_fields (e : Engine) (step rand : ℚ) :
    ((¬ timerDue e.nextBreathTime (e.respiratoryTime + step)) →
     (¬ timerDue e.nextBeatTime (e.rhythmTime + step)) →
     (¬ timerDue e.nextCompressionTime (e.rhythmTime + step)) →
      (updateWaveformsTimers step rand e).curEtco2 = e.curEtco2 ∧
      (updateWaveformsTimers step rand e).curSpo2 = e.curSpo2 ∧
      (updateWaveformsTimers step rand e).curAbp = e.curAbp) ∧
    (∀ pe : Etco2Params, e.isEtco2UpdatePending = true → e.pendingEtco2Params = some pe →
      timerDue e.nextBreathTime (e.respiratoryTime + step) →
      (updateWaveformsTimers step rand e).curEtco2 = pe) ∧
    (∀ tgt : Spo2Params,
      initiateParameterChangeSpo2 tgt e = { e with itpSpo2 := some tgt }) ∧
    (∀ tgt : AbpParams,
      initiateParameterChangeAbp tgt e = { e with itpAbp := some tgt }) ∧
    (∀ itp : Spo2Params, e.itpSpo2 = some itp → e.isSpo2UpdatePending = false →
      e.curSpo2.shape ≠ itp.shape →
      (animLoopApplySpo2Shape e).curSpo2.shape = itp.shape) ∧
    (∀ itp : AbpParams, e.itpAbp = some itp → e.isAbpUpdatePending = false →
      e.curAbp.shape ≠ itp.shape →
      (animLoopApplyAbpShape e).curAbp.shape = itp.shape) := by
  refine ⟨?_, ?_, fun tgt => ipcSpo2_branch_dead tgt e, fun tgt => ipcAbp_branch_dead tgt e,
    ?_, ?_⟩
  · intro hbr hbe hco
    unfold updateWaveformsTimers checkAndResetTimers
    rw [checkBreathTimers_not_due _ hbr, checkCardiacTimers_not_due rand _ hbe hco]
    exact ⟨rfl, rfl, rfl⟩
  · intro pe hp hpe hdue
    unfold updateWaveformsTimers checkAndResetTimers
    rw [checkCardiacTimers_curEtco2]
    exact checkBreathTimers_applies_pending _ pe hp hpe hdue
  · intro itp hitp hpend hne
    unfold animLoopApplySpo2Shape
    rw [hitp]
    dsimp only
    rw [if_pos ⟨hne, hpend⟩]
  · intro itp hitp hpend hne
    unfold animLoopApplyAbpShape
    rw [hitp]
    dsimp only
    rw [if_pos ⟨hne, hpend⟩]

/-- Witness for the amended claim C4: a mid-cycle tick of the example
engine leaves the deferred ETCO2 and SpO2 fields untouched, and the
request-time effect of the SpO2 block is exactly the snapshot install. -/
theorem claimC4_witness :
    (updateWaveformsTimers (1 / 100) 0 egNoSignalEngine).curEtco2 =
      egNoSignalEngine.curEtco2 ∧
    (updateWaveformsTimers (1 / 100) 0 egNoSignalEngine).curSpo2 =
      egNoSignalEngine.curSpo2 ∧
    initiateParameterChangeSpo2 spo2RecoverTarget egNoSignalEngine =
      { egNoSignalEngine with itpSpo2 := some spo2RecoverTarget } := by
  have h := claimC4_deferred_fields egNoSignalEngine (1 / 100) 0
  have h1 := h.1
    (by simp [timerDue, egNoSignalEngine]; norm_num)
    (by simp [timerDue, egNoSignalEngine]; norm_num)
    (by simp [timerDue, egNoSignalEngine])
  exact ⟨h1.1, h1.2.1, h.2.2.1 spo2RecoverTarget⟩

/-- Counterexample to claim C4 as stated: on an engine strictly between
cycle boundaries, a requested SpO2 change to 98 % / normal reaches
currentParams.spo2.shape at the very next rendering callback
(initiateParameterChange installs the interpolation target, and
_animationLoop copies the shape over since no update is pending) — a
deferred channel field of currentParams changes with no cycle boundary
crossed. -/
theorem claimC4_counterexample :
    (animLoopApplySpo2Shape
        (initiateParameterChangeSpo2 spo2RecoverTarget egNoSignalEngine)).curSpo2.shape =
      "normal" ∧
    egNoSignalEngine.curSpo2.shape = "no_signal" ∧
    egNoSignalEngine.isSpo2UpdatePending = false ∧
    ¬ timerDue egNoSignalEngine.nextBeatTime egNoSignalEngine.rhythmTime ∧
    ¬ timerDue egNoSignalEngine.nextBreathTime egNoSignalEngine.respiratoryTime := by
  refine ⟨?_, rfl, rfl, ?_, ?_⟩
  · rw [ipcSpo2_branch_dead]
    unfold animLoopApplySpo2Shape
    dsimp only
    rw [if_pos ⟨by decide, rfl⟩]
    rfl
  · simp [timerDue, egNoSignalEngine]
    norm_num
  · simp [timerDue, egNoSignalEngine]
    norm_num

/-! ### Unknown rhythm identifiers (claim C8) -/

/-- Claim C8 (amended): a remote parameter update naming a rhythm identifier
with no RHYTHM_PARAMS entry is not refused — the target ECG params become
the empty object while the rhythm key is taken over verbatim, and with the
simulation not running the whole target (unknown key, empty params) is
copied into currentParams.ecg. -/
theorem claimC8_unknown_rhythm_not_refused (catalog : String → Option EcgRuntimeParams)
    (received cur : EcgChannel) (hnone : catalog received.rhythm = none) :
    (handleRemoteParamUpdateEcg catalog received false cur).1.params = emptyEcgParams ∧
    (handleRemoteParamUpdateEcg catalog received false cur).1.rhythm = received.rhythm ∧
    (handleRemoteParamUpdateEcg catalog received false cur).2 =
      (handleRemoteParamUpdateEcg catalog received false cur).1 := by
  have hif : ¬ (received.rhythm ≠ "" ∧ (catalog received.rhythm).isSome = true) := by
    rintro ⟨-, h⟩
    rw [hnone] at h
    exact absurd h (by decide)
  unfold handleRemoteParamUpdateEcg
  dsimp only
  rw [if_neg hif]
  exact ⟨rfl, rfl, rfl⟩

/-- Witness for the amended claim C8 on the example catalog and the unknown
identifier rhythm_xyz. -/
theorem claimC8_witness :
    exampleCatalog unknownRhythmRemote.rhythm = none ∧
    (handleRemoteParamUpdateEcg exampleCatalog unknownRhythmRemote false
      (normalEcg 75)).1.params = emptyEcgParams ∧
    (handleRemoteParamUpdateEcg exampleCatalog unknownRhythmRemote false
      (normalEcg 75)).2 =
      (handleRemoteParamUpdateEcg exampleCatalog unknownRhythmRemote false
        (normalEcg 75)).1 := by
  have hnone : exampleCatalog unknownRhythmRemote.rhythm = none := by
    unfold exampleCatalog unknownRhythmRemote
    rw [if_neg (by decide)]
  have h := claimC8_unknown_rhythm_not_refused exampleCatalog unknownRhythmRemote
    (normalEcg 75) hnone
  exact ⟨hnone, h.1, h.2.2⟩

/-- Counterexample to claim C8 as stated: with the simulation not running, a
remote update to the unknown identifier rhythm_xyz replaces
currentParams.ecg — the previously rendering normal-sinus channel is not
kept; the new current rhythm is the unknown key with empty generator
params. -/
theorem claimC8_counterexample :
    exampleCatalog unknownRhythmRemote.rhythm = none ∧
    (handleRemoteParamUpdateEcg exampleCatalog unknownRhythmRemote false
      (normalEcg 75)).2.rhythm = "rhythm_xyz" ∧
    (handleRemoteParamUpdateEcg exampleCatalog unknownRhythmRemote false
      (normalEcg 75)).2.params = emptyEcgParams ∧
    (handleRemoteParamUpdateEcg exampleCatalog unknownRhythmRemote false
      (normalEcg 75)).2 ≠ normalEcg 75 := by
  have hnone : exampleCatalog unknownRhythmRemote.rhythm = none := by
    unfold exampleCatalog unknownRhythmRemote
    rw [if_neg (by decide)]
  have hif : ¬ (unknownRhythmRemote.rhythm ≠ "" ∧
      (exampleCatalog unknownRhythmRemote.rhythm).isSome = true) := by
    rw [hnone]
    rintro ⟨-, h⟩
    exact absurd h (by decide)
  refine ⟨hnone, ?_, ?_, ?_⟩
  · unfold handleRemoteParamUpdateEcg
    dsimp only
    rw [if_neg hif]
    rfl
  · unfold handleRemoteParamUpdateEcg
    dsimp only
    rw [if_neg hif]
    rfl
  · unfold handleRemoteParamUpdateEcg
    dsimp only
    rw [if_neg hif]
    intro hcontra
    have := congrArg EcgChannel.rhythm hcontra
    simp [unknownRhythmRemote, normalEcg] at this

end MonitorSim
